import Mathlib

/-!
Shallow embedding of `flask_celery.py` (Flask-Celery-Helper): the
`single_instance` task decorator, the `_LockManagerRedis` context manager
and its `timeout` property, and the task-identifier derivation.

Conventions of the embedding:
* The Redis store is a map from keys to the TTL stored with the lock; the
  only primitives the source uses are the non-blocking `lock(...).acquire`
  (atomic create-if-absent-with-expiry) and `lock.release` (delete).
* Machine integers are `Nat`; Python falsiness of `None`/`0` in the `or`
  chain is modelled by `0`.
* Raised exceptions are explicit result values (`Except` / `TaskResult`).
-/

/-! ## Python argument values and their textual form -/

/-- A Python argument value passed to a task: an int or a str. -/
inductive PyVal
  | pyInt (i : Int)
  | pyStr (s : String)
deriving DecidableEq

/-- The single-quote character (code point 39). -/
def sqc : Char := Char.ofNat 39

/-- The double-quote character (code point 34). -/
def dqc : Char := Char.ofNat 34

/-- Python `repr` of a str: single-quoted, unless the string contains a
single quote and no double quote, in which case it is double-quoted;
backslashes and the chosen quote are escaped. (Control-character escapes
are not modelled; no concrete input here contains control characters.) -/
def pyReprStr (s : String) : String :=
  let q := if s.data.contains sqc && ! s.data.contains dqc then dqc else sqc
  String.mk (q :: s.data.flatMap (fun c => if c = '\\' || c = q then ['\\', c] else [c]) ++ [q])

/-- Python `repr` of an argument value: decimal form for ints, quoted form
for strs. -/
def pyRepr : PyVal → String
  | PyVal.pyInt i => toString i
  | PyVal.pyStr s => pyReprStr s

/-- Python `str(args)` of the positional-argument tuple: `()`, `(x,)`,
or `(x, y, ...)` with elements rendered by `repr`. -/
def strTuple : List PyVal → String
  | [] => "()"
  | [x] => "(" ++ pyRepr x ++ ",)"
  | xs => "(" ++ String.intercalate ", " (xs.map pyRepr) ++ ")"

/-- Python `str(...)` of a list of `(key, value)` tuples. -/
def strPairList (ps : List (String × PyVal)) : String :=
  "[" ++ String.intercalate ", "
    (ps.map (fun p => "(" ++ pyReprStr p.1 ++ ", " ++ pyRepr p.2 ++ ")")) ++ "]"

/-- Lexicographic order on character lists by code point (how Python
compares strs). -/
def charsLt : List Char → List Char → Bool
  | [], [] => false
  | [], _ :: _ => true
  | _ :: _, [] => false
  | a :: as, b :: bs =>
      if a.toNat < b.toNat then true
      else if b.toNat < a.toNat then false
      else charsLt as bs

/-- Python `a < b` on strs. -/
def strLtPy (a b : String) : Bool :=
  charsLt a.data b.data

/-- Insert a keyword pair into a key-sorted list of pairs. -/
def insertKw (p : String × PyVal) : List (String × PyVal) → List (String × PyVal)
  | [] => [p]
  | q :: rest => if strLtPy p.1 q.1 then p :: q :: rest else q :: insertKw p rest

/-- `[(k, kwargs[k]) for k in sorted(kwargs)]`: the keyword arguments as
pairs sorted by key (Python sorts str keys by code points). -/
def sortKwargs (l : List (String × PyVal)) : List (String × PyVal) :=
  l.foldr insertKw []

/-- `merged_args = str(args) + str([(k, kwargs[k]) for k in sorted(kwargs)])`
(source line 181). -/
def mergedArgs (args : List PyVal) (kwargs : List (String × PyVal)) : String :=
  strTuple args ++ strPairList (sortKwargs kwargs)

/-! ## UTF-8 and MD5 (`merged_args.encode('utf-8')`, `hashlib.md5(...).hexdigest()`) -/

/-- UTF-8 encoding of a character, as a list of byte values. -/
def utf8Char (c : Char) : List Nat :=
  let n := c.toNat
  if n < 128 then [n]
  else if n < 2048 then [192 + n / 64, 128 + n % 64]
  else if n < 65536 then [224 + n / 4096, 128 + (n / 64) % 64, 128 + n % 64]
  else [240 + n / 262144, 128 + (n / 4096) % 64, 128 + (n / 64) % 64, 128 + n % 64]

/-- UTF-8 encoding of a string (the `.encode('utf-8')` call in the source). -/
def utf8Bytes (s : String) : List Nat :=
  s.data.flatMap utf8Char

/-- MD5 round constants K, in round order (RFC 1321). -/
def md5K : List Nat :=
  [0xd76aa478, 0xe8c7b756, 0x242070db, 0xc1bdceee,
   0xf57c0faf, 0x4787c62a, 0xa8304613, 0xfd469501,
   0x698098d8, 0x8b44f7af, 0xffff5bb1, 0x895cd7be,
   0x6b901122, 0xfd987193, 0xa679438e, 0x49b40821,
   0xf61e2562, 0xc040b340, 0x265e5a51, 0xe9b6c7aa,
   0xd62f105d, 0x02441453, 0xd8a1e681, 0xe7d3fbc8,
   0x21e1cde6, 0xc33707d6, 0xf4d50d87, 0x455a14ed,
   0xa9e3e905, 0xfcefa3f8, 0x676f02d9, 0x8d2a4c8a,
   0xfffa3942, 0x8771f681, 0x6d9d6122, 0xfde5380c,
   0xa4beea44, 0x4bdecfa9, 0xf6bb4b60, 0xbebfbc70,
   0x289b7ec6, 0xeaa127fa, 0xd4ef3085, 0x04881d05,
   0xd9d4d039, 0xe6db99e5, 0x1fa27cf8, 0xc4ac5665,
   0xf4292244, 0x432aff97, 0xab9423a7, 0xfc93a039,
   0x655b59c3, 0x8f0ccc92, 0xffeff47d, 0x85845dd1,
   0x6fa87e4f, 0xfe2ce6e0, 0xa3014314, 0x4e0811a1,
   0xf7537e82, 0xbd3af235, 0x2ad7d2bb, 0xeb86d391]

/-- MD5 per-round left-rotation amounts (RFC 1321). -/
def md5S : List Nat :=
  [7, 12, 17, 22, 7, 12, 17, 22, 7, 12, 17, 22, 7, 12, 17, 22,
   5, 9, 14, 20, 5, 9, 14, 20, 5, 9, 14, 20, 5, 9, 14, 20,
   4, 11, 16, 23, 4, 11, 16, 23, 4, 11, 16, 23, 4, 11, 16, 23,
   6, 10, 15, 21, 6, 10, 15, 21, 6, 10, 15, 21, 6, 10, 15, 21]

/-- 32-bit left rotation (operands reduced mod `2 ^ 32`). -/
def rotl32 (x c : Nat) : Nat :=
  ((x % 4294967296) * 2 ^ c + (x % 4294967296) / 2 ^ (32 - c)) % 4294967296

/-- 32-bit bitwise complement. -/
def not32 (x : Nat) : Nat := Nat.xor (x % 4294967296) 4294967295

/-- MD5 padding: append the byte 0x80, zero bytes up to 56 mod 64, then the
64-bit little-endian bit length of the message. -/
def md5Pad (msg : List Nat) : List Nat :=
  let len := msg.length
  let zeros := (119 - len % 64) % 64
  let bitLen := (8 * len) % 18446744073709551616
  msg ++ [128] ++ List.replicate zeros 0 ++
    (List.range 8).map (fun i => (bitLen / 2 ^ (8 * i)) % 256)

/-- The j-th little-endian 32-bit word of a 64-byte chunk. -/
def md5Word (chunk : List Nat) (j : Nat) : Nat :=
  chunk.getD (4 * j) 0 + 256 * chunk.getD (4 * j + 1) 0 +
    65536 * chunk.getD (4 * j + 2) 0 + 16777216 * chunk.getD (4 * j + 3) 0

/-- One MD5 round on state (A, B, C, D) with message chunk and round index i. -/
def md5Round (chunk : List Nat) (st : Nat × Nat × Nat × Nat) (i : Nat) :
    Nat × Nat × Nat × Nat :=
  let a := st.1
  let b := st.2.1
  let c := st.2.2.1
  let d := st.2.2.2
  let f :=
    if i < 16 then Nat.lor (Nat.land b c) (Nat.land (not32 b) d)
    else if i < 32 then Nat.lor (Nat.land d b) (Nat.land (not32 d) c)
    else if i < 48 then Nat.xor b (Nat.xor c d)
    else Nat.xor c (Nat.lor b (not32 d))
  let g :=
    if i < 16 then i
    else if i < 32 then (5 * i + 1) % 16
    else if i < 48 then (3 * i + 5) % 16
    else (7 * i) % 16
  let fv := (f + a + md5K.getD i 0 + md5Word chunk g) % 4294967296
  (d, (b + rotl32 fv (md5S.getD i 0)) % 4294967296, b, c)

/-- Process one 64-byte chunk, updating the running MD5 state. -/
def md5Chunk (st : Nat × Nat × Nat × Nat) (chunk : List Nat) :
    Nat × Nat × Nat × Nat :=
  let r := (List.range 64).foldl (md5Round chunk) st
  ((st.1 + r.1) % 4294967296, (st.2.1 + r.2.1) % 4294967296,
   (st.2.2.1 + r.2.2.1) % 4294967296, (st.2.2.2 + r.2.2.2) % 4294967296)

/-- The final MD5 state over a byte message (after padding, all chunks). -/
def md5Core (msg : List Nat) : Nat × Nat × Nat × Nat :=
  let padded := md5Pad msg
  let n := padded.length / 64
  (List.range n).foldl
    (fun st i => md5Chunk st ((padded.drop (64 * i)).take 64))
    (0x67452301, 0xefcdab89, 0x98badcfe, 0x10325476)

/-- The 128-bit MD5 digest as a natural number: the 16 digest bytes
(words A, B, C, D, each little-endian) read as one little-endian number. -/
def md5Digest (msg : List Nat) : Nat :=
  let st := md5Core msg
  st.1 % 4294967296 + 4294967296 * (st.2.1 % 4294967296) +
    18446744073709551616 * (st.2.2.1 % 4294967296) +
    79228162514264337593543950336 * (st.2.2.2 % 4294967296)

/-- Lower-case hex character for a value below 16. -/
def hexChar (n : Nat) : Char :=
  if n < 10 then Char.ofNat (48 + n) else Char.ofNat (87 + n % 16)

/-- Two-character lower-case hex rendering of a byte. -/
def hexByte (b : Nat) : List Char :=
  [hexChar (b / 16 % 16), hexChar (b % 16)]

/-- `hashlib.md5(msg).hexdigest()`: the 16 digest bytes as 32 lower-case hex
characters. Validated against the RFC 1321 test vectors. -/
def md5Hex (msg : List Nat) : String :=
  String.mk (((List.range 16).map (fun i => md5Digest msg / 2 ^ (8 * i) % 256)).flatMap hexByte)

/-! ## Task identifier (source lines 178-182) -/

/-- The task identifier computed by `wrapped`: the task name, suffixed with
`.args.` and the MD5 hexdigest of `merged_args` when `include_args` is set. -/
def taskIdentifier (name : String) (include_args : Bool)
    (args : List PyVal) (kwargs : List (String × PyVal)) : String :=
  if include_args then
    name ++ ".args." ++ md5Hex (utf8Bytes (mergedArgs args kwargs))
  else
    name

/-! ## The shared Redis store -/

/-- The shared store: a map from Redis keys to the timeout stored with the
lock entry. `none` means the key is absent (no lease). -/
def Store : Type := String → Option Nat

/-- Atomic create-if-absent-with-expiry: the semantics of the non-blocking
`redis.lock(key, timeout=t).acquire(blocking=False)` round-trip. Returns
whether the lock was obtained, and the store afterwards. -/
def setnx (s : Store) (key : String) (ttl : Nat) : Bool × Store :=
  match s key with
  | some _ => (false, s)
  | none => (true, fun k => if k = key then some ttl else s k)

/-- `lock.release()`: delete the key from the store. -/
def delKey (s : Store) (key : String) : Store :=
  fun k => if k = key then none else s k

/-! ## Exception objects -/

/-- Exception classes relevant to the source: `OtherInstanceError`,
`NotImplementedError`, and an indexed family standing for every other
application-level exception class a task body could raise. -/
inductive ExcClass
  | otherInstanceError
  | notImplementedError
  | appExc (n : Nat)
deriving DecidableEq

/-- A Python value that can be passed as the `exc_type` argument of
`__exit__`: `None`, an exception class object, or (to give `isinstance`
its full domain) an exception instance. -/
inductive PyExcVal
  | pyNone
  | pyClass (c : ExcClass)
  | pyInst (c : ExcClass)
deriving DecidableEq

/-- Python `isinstance(x, C)` for the values above: true exactly when `x`
is an instance of class `C`. A class object is an instance of `type`, not
of any exception class, and `None` is an instance of `NoneType` only; the
modelled exception classes are pairwise unrelated, so an instance matches
only its own class. -/
def isinstance : PyExcVal → ExcClass → Bool
  | PyExcVal.pyInst c, k => c = k
  | PyExcVal.pyClass _, _ => false
  | PyExcVal.pyNone, _ => false

/-! ## Lock timeout resolution (the `timeout` property, source lines 62-72) -/

/-- The Celery task object fields read by the source: the task name and its
declared soft/hard time limits (0 standing for Python `None`, both falsy). -/
structure CelerySelf where
  name : String
  soft_time_limit : Nat
  time_limit : Nat

/-- The Flask app configuration fields read by the source: the result
backend URL and the global `CELERYD_TASK_SOFT_TIME_LIMIT` /
`CELERYD_TASK_TIME_LIMIT` defaults (`config.get(..., 0)`). -/
structure AppConfig where
  result_backend_url : String
  celeryd_task_soft_time_limit : Nat
  celeryd_task_time_limit : Nat

/-- Python `a or b` on these values: `None` and `0` are falsy (both are 0
here); any other number is returned unchanged. -/
def pyOr (a b : Nat) : Nat :=
  if a = 0 then b else a

/-- The `timeout` property of `_LockManagerRedis`:
`(lock_timeout or soft_time_limit(task) or time_limit(task) or
CELERYD_TASK_SOFT_TIME_LIMIT or CELERYD_TASK_TIME_LIMIT or 60*5) + 5`. -/
def lockTimeout (lock_timeout : Nat) (celery_self : CelerySelf) (cfg : AppConfig) : Nat :=
  pyOr lock_timeout (pyOr celery_self.soft_time_limit (pyOr celery_self.time_limit
    (pyOr cfg.celeryd_task_soft_time_limit (pyOr cfg.celeryd_task_time_limit (60 * 5))))) + 5

/-- The timeout resolver as worded by the spec (section 4.1): the first
non-empty/non-zero candidate in precedence order, the constant 300 as last
resort, plus the fixed 5-second margin. Stated separately so the source
definition `lockTimeout` can be proved to refine it. -/
def resolveSpec (override soft hard gsoft ghard : Nat) : Nat :=
  (if override ≠ 0 then override
   else if soft ≠ 0 then soft
   else if hard ≠ 0 then hard
   else if gsoft ≠ 0 then gsoft
   else if ghard ≠ 0 then ghard
   else 300) + 5

/-! ## The lock manager (`__enter__` / `__exit__`, source lines 42-60) -/

/-- `CELERY_LOCK_REDIS = '_celery.single_instance.<task_id>'`: the Redis
key for a task identifier. -/
def redisKey (task_identifier : String) : String :=
  "_celery.single_instance." ++ task_identifier

/-- The message of the `OtherInstanceError` raised on a failed acquire. -/
def lockFailMsg (task_identifier : String) : String :=
  "Failed to acquire lock, " ++ task_identifier ++ " already running."

/-- `_LockManagerRedis.__enter__`: compute the Redis key, attempt the
single non-blocking atomic acquire; on failure raise `OtherInstanceError`
(the `Except.error` case, store untouched), on success return with the
lease written. -/
def lockManagerEnter (s : Store) (task_identifier : String) (t : Nat) :
    Except String Store :=
  match setnx s (redisKey task_identifier) t with
  | (true, s1) => Except.ok s1
  | (false, _) => Except.error (lockFailMsg task_identifier)

/-- `_LockManagerRedis.__exit__(exc_type, *_)`: if
`isinstance(exc_type, OtherInstanceError)` then return without releasing,
else release the lock. Returns the store afterwards and whether a release
was issued. -/
def lockManagerExit (exc_type : PyExcVal) (s : Store) (task_identifier : String) :
    Store × Bool :=
  if isinstance exc_type ExcClass.otherInstanceError then (s, false)
  else (delKey s (redisKey task_identifier), true)

/-! ## Backend selection (source lines 184-193) -/

/-- Characters of `url.split('://')[0]`: everything before the first
occurrence of `://`, or the whole string when absent. -/
def schemeChars : List Char → List Char
  | [] => []
  | ':' :: '/' :: '/' :: _ => []
  | c :: rest => c :: schemeChars rest

/-- `backend = backend_url.split('://')[0]`. -/
def backendScheme (url : String) : String :=
  String.mk (schemeChars url.data)

/-- Whether the first list is an initial segment of the second. -/
def leadsWith : List Char → List Char → Bool
  | [], _ => true
  | _ :: _, [] => false
  | a :: as, b :: bs => a = b && leadsWith as bs

/-- Substring test on character lists. -/
def hasSubstring (needle : List Char) : List Char → Bool
  | [] => needle.isEmpty
  | c :: rest => leadsWith needle (c :: rest) || hasSubstring needle rest

/-- Python `needle in hay` on strings: substring containment. -/
def pyIn (needle hay : String) : Bool :=
  hasSubstring needle.data hay.data

/-! ## The guard (`wrapped` inside `single_instance`, source lines 176-198) -/

/-- What the wrapped task body does when invoked: return a value or raise
an exception of some class. The body performs no store operation. -/
inductive BodyRun (R : Type)
  | ok (r : R)
  | raiseExc (c : ExcClass)
deriving DecidableEq

/-- The observable result of one `wrapped` invocation: the return value,
the `OtherInstanceError` raised by `__enter__` (carrying its message), the
`NotImplementedError` from backend selection, or the exception propagated
out of the task body. -/
inductive TaskResult (R : Type)
  | ok (r : R)
  | otherInstanceError (msg : String)
  | notImplementedError
  | excRaised (c : ExcClass)
deriving DecidableEq

/-- One store round-trip, as recorded in the invocation trace. -/
inductive StoreOp
  | acquire (key : String) (ttl : Nat) (ok : Bool)
  | release (key : String)
deriving DecidableEq

/-- Whether a store operation is a release (delete). -/
def StoreOp.isRelease : StoreOp → Bool
  | StoreOp.release _ => true
  | StoreOp.acquire _ _ _ => false

/-- Everything observable about one `wrapped` invocation: its result, the
store afterwards, the trace of store round-trips, and how many times the
task body ran. -/
structure WrappedOutcome (R : Type) where
  result : TaskResult R
  store : Store
  ops : List StoreOp
  bodyRuns : Nat

/-- `wrapped(celery_self, *args, **kwargs)`: derive the task identifier;
select the lock manager from the backend URL scheme (raising
`NotImplementedError`, with zero store access, when `redis` does not occur
in it); then run the `with lock_manager:` block — `__enter__` attempts the
single atomic acquire and raises `OtherInstanceError` on failure (in which
case `__exit__` is never invoked, per the Python `with` protocol); on
success the body runs once and `__exit__` receives the exception type that
escaped the body (`None` on normal return). -/
def wrapped {R : Type} (cfg : AppConfig) (celery_self : CelerySelf)
    (lock_timeout : Nat) (include_args : Bool)
    (args : List PyVal) (kwargs : List (String × PyVal))
    (body : BodyRun R) (s : Store) : WrappedOutcome R :=
  let task_identifier := taskIdentifier celery_self.name include_args args kwargs
  let backend := backendScheme cfg.result_backend_url
  if pyIn "redis" backend then
    let t := lockTimeout lock_timeout celery_self cfg
    let key := redisKey task_identifier
    match lockManagerEnter s task_identifier t with
    | Except.error msg =>
        ⟨TaskResult.otherInstanceError msg, s, [StoreOp.acquire key t false], 0⟩
    | Except.ok s1 =>
        match body with
        | BodyRun.ok r =>
            let ex := lockManagerExit PyExcVal.pyNone s1 task_identifier
            ⟨TaskResult.ok r, ex.1,
              StoreOp.acquire key t true :: (if ex.2 then [StoreOp.release key] else []), 1⟩
        | BodyRun.raiseExc c =>
            let ex := lockManagerExit (PyExcVal.pyClass c) s1 task_identifier
            ⟨TaskResult.excRaised c, ex.1,
              StoreOp.acquire key t true :: (if ex.2 then [StoreOp.release key] else []), 1⟩
  else
    ⟨TaskResult.notImplementedError, s, [], 0⟩

/-! ## Two concurrent invocations against the atomic store -/

/-- Where one invocation stands: not yet at the acquire, holding the lease
(body running), finished (released), or rejected by `__enter__` with the
raised `OtherInstanceError` message. -/
inductive TPhase
  | idle
  | held
  | finished
  | rejected (msg : String)
deriving DecidableEq

/-- Per-invocation state: phase plus how many times its body has run. -/
structure ThreadSt where
  phase : TPhase
  runs : Nat
deriving DecidableEq

/-- Joint state of two racing invocations sharing one store. -/
structure PairSt where
  store : Store
  ta : ThreadSt
  tb : ThreadSt

/-- One atomic step of one invocation: from `idle`, the `__enter__`
acquire (body starts on success); from `held`, the scope exit releasing
via `__exit__`. The body itself touches no shared state, so it is bundled
with its surrounding atomic store operations. -/
def threadStep (ident : String) (ttl : Nat) (t : ThreadSt) (s : Store) :
    ThreadSt × Store :=
  match t.phase with
  | TPhase.idle =>
      match lockManagerEnter s ident ttl with
      | Except.ok s1 => (⟨TPhase.held, t.runs + 1⟩, s1)
      | Except.error msg => (⟨TPhase.rejected msg, t.runs⟩, s)
  | TPhase.held => (⟨TPhase.finished, t.runs⟩, (lockManagerExit PyExcVal.pyNone s ident).1)
  | _ => (t, s)

/-- Schedule one step: `true` steps invocation A (timeout `ttlA`), `false`
steps invocation B (timeout `ttlB`). -/
def pairStep (ident : String) (ttlA ttlB : Nat) (st : PairSt) (who : Bool) : PairSt :=
  if who then
    let r := threadStep ident ttlA st.ta st.store
    ⟨r.2, r.1, st.tb⟩
  else
    let r := threadStep ident ttlB st.tb st.store
    ⟨r.2, st.ta, r.1⟩

/-- Run a whole interleaving of the two invocations from an initial store,
both starting at `idle` with zero body runs. -/
def runPair (ident : String) (ttlA ttlB : Nat) (sched : List Bool) (s0 : Store) : PairSt :=
  sched.foldl (pairStep ident ttlA ttlB) ⟨s0, ⟨TPhase.idle, 0⟩, ⟨TPhase.idle, 0⟩⟩

/-- The complete interleavings of two 2-step invocations in which the
second acquire happens before the first release — the overlapping
(concurrent) executions. -/
def concurrentScheds : List (List Bool) :=
  [[true, false, true, false], [true, false, false, true],
   [false, true, true, false], [false, true, false, true]]

/-- Whether an `__enter__` attempt on a store succeeds (acquisition
possible). -/
def enterOk (s : Store) (task_identifier : String) (t : Nat) : Bool :=
  match lockManagerEnter s task_identifier t with
  | Except.ok _ => true
  | Except.error _ => false

/-- The single-quote character as a one-character string (used to write
expected Python reprs). -/
def sqStr : String := String.mk [sqc]

/-! ## Helper lemmas -/

/-- String append is left-cancellative. -/
theorem append_left_cancel_str (s a b : String) (h : s ++ a = s ++ b) : a = b := by
  have h2 : (s ++ a).data = (s ++ b).data := congrArg String.data h
  have ha : (s ++ a).data = s.data ++ a.data := rfl
  have hb : (s ++ b).data = s.data ++ b.data := rfl
  rw [ha, hb] at h2
  exact congrArg String.mk (List.append_cancel_left h2)

/-- The MD5 digest is a 128-bit value. -/
theorem md5Digest_lt (msg : List Nat) :
    md5Digest msg < 340282366920938463463374607431768211456 := by
  have he : md5Digest msg =
      (md5Core msg).1 % 4294967296 + 4294967296 * ((md5Core msg).2.1 % 4294967296) +
        18446744073709551616 * ((md5Core msg).2.2.1 % 4294967296) +
        79228162514264337593543950336 * ((md5Core msg).2.2.2 % 4294967296) := rfl
  have h1 : (md5Core msg).1 % 4294967296 < 4294967296 := Nat.mod_lt _ (by norm_num)
  have h2 : (md5Core msg).2.1 % 4294967296 < 4294967296 := Nat.mod_lt _ (by norm_num)
  have h3 : (md5Core msg).2.2.1 % 4294967296 < 4294967296 := Nat.mod_lt _ (by norm_num)
  have h4 : (md5Core msg).2.2.2 % 4294967296 < 4294967296 := Nat.mod_lt _ (by norm_num)
  rw [he]
  omega

/-- A rejected invocation: when the backend is Redis and the key is already
present, `wrapped` raises the `OtherInstanceError` from `__enter__`, leaves
the store untouched, records only the failed acquire, and never runs the
body. -/
theorem wrapped_rejected {R : Type} (cfg : AppConfig) (cs : CelerySelf)
    (lt : Nat) (ia : Bool) (args : List PyVal) (kwargs : List (String × PyVal))
    (body : BodyRun R) (s : Store) (v : Nat)
    (hredis : pyIn "redis" (backendScheme cfg.result_backend_url) = true)
    (hheld : s (redisKey (taskIdentifier cs.name ia args kwargs)) = some v) :
    wrapped cfg cs lt ia args kwargs body s =
      ⟨TaskResult.otherInstanceError (lockFailMsg (taskIdentifier cs.name ia args kwargs)),
       s,
       [StoreOp.acquire (redisKey (taskIdentifier cs.name ia args kwargs))
          (lockTimeout lt cs cfg) false],
       0⟩ := by
  simp only [wrapped, hredis, if_true, lockManagerEnter, setnx, hheld]

/-! ## Claim theorems -/

/-- C5: the timeout resolver picks the first non-zero value in the order
explicit override, task soft limit, task hard limit, global soft default,
global hard default, then the constant 300, and adds the fixed margin 5;
in particular resolving with only a hard limit of 30 gives 35. -/
theorem lockTimeout_precedence :
    (∀ (lt : Nat) (cs : CelerySelf) (cfg : AppConfig),
        lockTimeout lt cs cfg =
          resolveSpec lt cs.soft_time_limit cs.time_limit
            cfg.celeryd_task_soft_time_limit cfg.celeryd_task_time_limit) ∧
    lockTimeout 0 ⟨"task", 0, 30⟩ ⟨"redis://h", 0, 0⟩ = 35 := by
  constructor
  · intro lt cs cfg
    simp only [lockTimeout, resolveSpec, pyOr]
    split_ifs <;> omega
  · decide

/-- C6: for all inputs the timeout resolver returns a positive integer of
at least 5 (the margin). -/
theorem lockTimeout_at_least_margin :
    ∀ (lt : Nat) (cs : CelerySelf) (cfg : AppConfig),
      5 ≤ lockTimeout lt cs cfg ∧ 0 < lockTimeout lt cs cfg := by
  intro lt cs cfg
  simp only [lockTimeout, pyOr]
  split_ifs <;> omega

/-- C2: whenever lock acquisition fails, the invocation fails with the
`OtherInstanceError` raised by `__enter__` (propagated to the caller, not
swallowed) and the wrapped task body is never invoked. -/
theorem wrapped_already_locked {R : Type} (cfg : AppConfig) (cs : CelerySelf)
    (lt : Nat) (ia : Bool) (args : List PyVal) (kwargs : List (String × PyVal))
    (body : BodyRun R) (s : Store) (v : Nat)
    (hredis : pyIn "redis" (backendScheme cfg.result_backend_url) = true)
    (hheld : s (redisKey (taskIdentifier cs.name ia args kwargs)) = some v) :
    (wrapped cfg cs lt ia args kwargs body s).result =
      TaskResult.otherInstanceError (lockFailMsg (taskIdentifier cs.name ia args kwargs)) ∧
    (wrapped cfg cs lt ia args kwargs body s).bodyRuns = 0 := by
  rw [wrapped_rejected cfg cs lt ia args kwargs body s v hredis hheld]
  exact ⟨rfl, rfl⟩

/-- Witness for C2 at concrete inputs: the Redis backend, a store already
holding the key for task `mytask`, a body returning 3. -/
theorem wrapped_already_locked_witness :
    (wrapped ⟨"redis://localhost", 0, 0⟩ ⟨"mytask", 0, 0⟩ 10 false [] []
        (BodyRun.ok 3) (fun _ => some 7)).result =
      TaskResult.otherInstanceError (lockFailMsg (taskIdentifier "mytask" false [] [])) ∧
    (wrapped ⟨"redis://localhost", 0, 0⟩ ⟨"mytask", 0, 0⟩ 10 false [] []
        (BodyRun.ok 3) (fun _ => some 7)).bodyRuns = 0 :=
  wrapped_already_locked ⟨"redis://localhost", 0, 0⟩ ⟨"mytask", 0, 0⟩ 10 false [] []
    (BodyRun.ok 3) (fun _ => some 7) 7 (by decide) rfl

/-- C3: an invocation rejected with `OtherInstanceError` issues no delete
against the store: the store is unchanged, the lease of the other holder
is still present, and the trace holds no release operation. -/
theorem wrapped_reject_no_release {R : Type} (cfg : AppConfig) (cs : CelerySelf)
    (lt : Nat) (ia : Bool) (args : List PyVal) (kwargs : List (String × PyVal))
    (body : BodyRun R) (s : Store) (v : Nat)
    (hredis : pyIn "redis" (backendScheme cfg.result_backend_url) = true)
    (hheld : s (redisKey (taskIdentifier cs.name ia args kwargs)) = some v) :
    (wrapped cfg cs lt ia args kwargs body s).store = s ∧
    (wrapped cfg cs lt ia args kwargs body s).store
        (redisKey (taskIdentifier cs.name ia args kwargs)) = some v ∧
    ((wrapped cfg cs lt ia args kwargs body s).ops.all
        (fun op => ! op.isRelease)) = true := by
  rw [wrapped_rejected cfg cs lt ia args kwargs body s v hredis hheld]
  exact ⟨rfl, hheld, rfl⟩

/-- Witness for C3 at concrete inputs. -/
theorem wrapped_reject_no_release_witness :
    (wrapped ⟨"redis://localhost", 0, 0⟩ ⟨"mytask", 0, 0⟩ 10 false [] []
        (BodyRun.ok 3) (fun _ => some 7)).store = (fun _ => some 7) ∧
    (wrapped ⟨"redis://localhost", 0, 0⟩ ⟨"mytask", 0, 0⟩ 10 false [] []
        (BodyRun.ok 3) (fun _ => some 7)).store
        (redisKey (taskIdentifier "mytask" false [] [])) = some 7 ∧
    ((wrapped ⟨"redis://localhost", 0, 0⟩ ⟨"mytask", 0, 0⟩ 10 false [] []
        (BodyRun.ok 3) (fun _ => some 7)).ops.all
        (fun op => ! op.isRelease)) = true :=
  wrapped_reject_no_release ⟨"redis://localhost", 0, 0⟩ ⟨"mytask", 0, 0⟩ 10 false [] []
    (BodyRun.ok 3) (fun _ => some 7) 7 (by decide) rfl

/-- C8: when the backend URL scheme is not a Redis one, `wrapped` fails
with `NotImplementedError` before any store access: no store operation is
recorded, the store is unchanged, and the body never runs. -/
theorem wrapped_unsupported_backend {R : Type} (cfg : AppConfig) (cs : CelerySelf)
    (lt : Nat) (ia : Bool) (args : List PyVal) (kwargs : List (String × PyVal))
    (body : BodyRun R) (s : Store)
    (hnored : pyIn "redis" (backendScheme cfg.result_backend_url) = false) :
    wrapped cfg cs lt ia args kwargs body s =
      ⟨TaskResult.notImplementedError, s, [], 0⟩ := by
  simp only [wrapped, hnored, Bool.false_eq_true, if_false]

/-- Witness for C8 at concrete inputs: an AMQP backend URL. -/
theorem wrapped_unsupported_backend_witness :
    wrapped ⟨"amqp://broker", 0, 0⟩ ⟨"mytask", 0, 0⟩ 10 false [] []
        (BodyRun.ok 3) (fun _ => none) =
      ⟨TaskResult.notImplementedError, (fun _ => none), [], 0⟩ :=
  wrapped_unsupported_backend ⟨"amqp://broker", 0, 0⟩ ⟨"mytask", 0, 0⟩ 10 false [] []
    (BodyRun.ok 3) (fun _ => none) (by decide)

/-- C4: an invocation that acquires the lease runs the body exactly once
and releases the lease on both exit paths (normal return and body
exception): afterwards the key is absent from the store, an immediate
subsequent acquisition succeeds, the trace is exactly one acquire followed
by one release, and the body result or exception is propagated unchanged. -/
theorem wrapped_releases_on_every_exit {R : Type} (cfg : AppConfig) (cs : CelerySelf)
    (lt : Nat) (ia : Bool) (args : List PyVal) (kwargs : List (String × PyVal))
    (body : BodyRun R) (s : Store)
    (hredis : pyIn "redis" (backendScheme cfg.result_backend_url) = true)
    (hfree : s (redisKey (taskIdentifier cs.name ia args kwargs)) = none) :
    (wrapped cfg cs lt ia args kwargs body s).bodyRuns = 1 ∧
    (wrapped cfg cs lt ia args kwargs body s).store
        (redisKey (taskIdentifier cs.name ia args kwargs)) = none ∧
    (∀ t2 : Nat,
      enterOk (wrapped cfg cs lt ia args kwargs body s).store
        (taskIdentifier cs.name ia args kwargs) t2 = true) ∧
    (wrapped cfg cs lt ia args kwargs body s).ops =
      [StoreOp.acquire (redisKey (taskIdentifier cs.name ia args kwargs))
        (lockTimeout lt cs cfg) true,
       StoreOp.release (redisKey (taskIdentifier cs.name ia args kwargs))] ∧
    (wrapped cfg cs lt ia args kwargs body s).result =
      (match body with
       | BodyRun.ok r => TaskResult.ok r
       | BodyRun.raiseExc c => TaskResult.excRaised c) := by
  cases body <;>
    simp [wrapped, hredis, lockManagerEnter, setnx, hfree, lockManagerExit, isinstance,
      enterOk, delKey]

/-- Witness for C4 at concrete inputs: empty store, Redis backend, a body
returning 3; re-acquisition checked at timeout 42. -/
theorem wrapped_releases_on_every_exit_witness :
    (wrapped ⟨"redis://localhost", 0, 0⟩ ⟨"mytask", 0, 0⟩ 10 false [] []
        (BodyRun.ok 3) (fun _ => none)).bodyRuns = 1 ∧
    (wrapped ⟨"redis://localhost", 0, 0⟩ ⟨"mytask", 0, 0⟩ 10 false [] []
        (BodyRun.ok 3) (fun _ => none)).store
        (redisKey (taskIdentifier "mytask" false [] [])) = none ∧
    enterOk (wrapped ⟨"redis://localhost", 0, 0⟩ ⟨"mytask", 0, 0⟩ 10 false [] []
        (BodyRun.ok 3) (fun _ => none)).store
        (taskIdentifier "mytask" false [] []) 42 = true ∧
    (wrapped ⟨"redis://localhost", 0, 0⟩ ⟨"mytask", 0, 0⟩ 10 false [] []
        (BodyRun.ok 3) (fun _ => none)).result = TaskResult.ok 3 := by
  have h := wrapped_releases_on_every_exit ⟨"redis://localhost", 0, 0⟩ ⟨"mytask", 0, 0⟩
    10 false [] [] (BodyRun.ok 3) (fun _ => none) (by decide) rfl
  exact ⟨h.1, h.2.1, h.2.2.1 42, h.2.2.2.2⟩

/-- C9: for every value the `with` protocol can pass as `exc_type` (`None`
or an exception class object, never an instance), the source test
`isinstance(exc_type, OtherInstanceError)` is false, so `__exit__`
releases whenever it is called; the skip-release-after-rejection behaviour
holds only because a rejected invocation raises inside `__enter__` and
`__exit__` is never invoked: its trace holds no release operation. -/
theorem exit_isinstance_always_false :
    (∀ (e : PyExcVal) (s : Store) (ident : String),
        (e = PyExcVal.pyNone ∨ ∃ c, e = PyExcVal.pyClass c) →
        isinstance e ExcClass.otherInstanceError = false ∧
        lockManagerExit e s ident = (delKey s (redisKey ident), true)) ∧
    (∀ (R : Type) (cfg : AppConfig) (cs : CelerySelf) (lt : Nat) (ia : Bool)
        (args : List PyVal) (kwargs : List (String × PyVal)) (body : BodyRun R)
        (s : Store) (v : Nat),
        pyIn "redis" (backendScheme cfg.result_backend_url) = true →
        s (redisKey (taskIdentifier cs.name ia args kwargs)) = some v →
        ((wrapped cfg cs lt ia args kwargs body s).ops.all
            (fun op => ! op.isRelease)) = true) := by
  constructor
  · rintro e s ident (rfl | ⟨c, rfl⟩) <;> exact ⟨rfl, rfl⟩
  · intro R cfg cs lt ia args kwargs body s v hredis hheld
    rw [wrapped_rejected cfg cs lt ia args kwargs body s v hredis hheld]
    rfl

/-- Witness for C9: `exc_type = None` and a concrete rejected invocation. -/
theorem exit_isinstance_always_false_witness :
    (isinstance PyExcVal.pyNone ExcClass.otherInstanceError = false ∧
      lockManagerExit PyExcVal.pyNone (fun _ => some 7) "mytask" =
        (delKey (fun _ => some 7) (redisKey "mytask"), true)) ∧
    ((wrapped ⟨"redis://localhost", 0, 0⟩ ⟨"mytask", 0, 0⟩ 10 false [] []
        (BodyRun.ok 3) (fun _ => some 7)).ops.all
        (fun op => ! op.isRelease)) = true :=
  ⟨exit_isinstance_always_false.1 PyExcVal.pyNone (fun _ => some 7) "mytask" (Or.inl rfl),
   exit_isinstance_always_false.2 Nat ⟨"redis://localhost", 0, 0⟩ ⟨"mytask", 0, 0⟩ 10 false
     [] [] (BodyRun.ok 3) (fun _ => some 7) 7 (by decide) rfl⟩

/-- C1: for every overlapping interleaving of two invocations guarding the
same task identifier against a store with the key initially absent,
exactly one invocation acquires (reaching `finished` through `held`), the
other is rejected with the `OtherInstanceError` raised by `__enter__`, and
the body runs exactly once in total. -/
theorem concurrent_guard_mutual_exclusion :
    ∀ (s0 : Store) (ident : String) (ttlA ttlB : Nat) (sched : List Bool),
      s0 (redisKey ident) = none →
      sched ∈ concurrentScheds →
      (((runPair ident ttlA ttlB sched s0).ta.phase = TPhase.finished ∧
        (runPair ident ttlA ttlB sched s0).tb.phase = TPhase.rejected (lockFailMsg ident)) ∨
       ((runPair ident ttlA ttlB sched s0).ta.phase = TPhase.rejected (lockFailMsg ident) ∧
        (runPair ident ttlA ttlB sched s0).tb.phase = TPhase.finished)) ∧
      (runPair ident ttlA ttlB sched s0).ta.runs +
        (runPair ident ttlA ttlB sched s0).tb.runs = 1 := by
  intro s0 ident ttlA ttlB sched h0 hs
  simp only [concurrentScheds, List.mem_cons, List.not_mem_nil, or_false] at hs
  rcases hs with rfl | rfl | rfl | rfl <;>
    simp [runPair, pairStep, threadStep, lockManagerEnter, lockManagerExit, setnx,
      delKey, isinstance, h0]

/-- Witness for C1: empty store, identifier `mytask`, interleaving
A-acquire, B-acquire, A-release, B-observes-rejection. -/
theorem concurrent_guard_mutual_exclusion_witness :
    (((runPair "mytask" 1 2 [true, false, true, false] (fun _ => none)).ta.phase =
          TPhase.finished ∧
      (runPair "mytask" 1 2 [true, false, true, false] (fun _ => none)).tb.phase =
          TPhase.rejected (lockFailMsg "mytask")) ∨
     ((runPair "mytask" 1 2 [true, false, true, false] (fun _ => none)).ta.phase =
          TPhase.rejected (lockFailMsg "mytask") ∧
      (runPair "mytask" 1 2 [true, false, true, false] (fun _ => none)).tb.phase =
          TPhase.finished)) ∧
    (runPair "mytask" 1 2 [true, false, true, false] (fun _ => none)).ta.runs +
      (runPair "mytask" 1 2 [true, false, true, false] (fun _ => none)).tb.runs = 1 :=
  concurrent_guard_mutual_exclusion (fun _ => none) "mytask" 1 2
    [true, false, true, false] rfl (by decide)

/-- C7 counterexample: with `include_args` set, different canonicalized
argument sets do NOT always yield different identities. The identity
appends a 128-bit MD5 digest, so some two distinct one-int argument lists
share an identity (pigeonhole over the digest codomain). This refutes the
claim that different canonicalized argument sets always yield different
identities. -/
theorem taskIdentifier_digest_collision :
    ∃ a1 a2 : List PyVal, a1 ≠ a2 ∧
      taskIdentifier "task" true a1 [] = taskIdentifier "task" true a2 [] := by
  obtain ⟨n, m, hnm, he⟩ :=
    Finite.exists_ne_map_eq_of_infinite
      (fun n : ℕ =>
        (⟨md5Digest (utf8Bytes (mergedArgs [PyVal.pyInt (n : Int)] [])),
          md5Digest_lt _⟩ : Fin 340282366920938463463374607431768211456))
  refine ⟨[PyVal.pyInt (n : Int)], [PyVal.pyInt (m : Int)], ?_, ?_⟩
  · intro h
    apply hnm
    have h2 : PyVal.pyInt (n : Int) = PyVal.pyInt (m : Int) := List.head_eq_of_cons_eq h
    have h3 : (n : Int) = (m : Int) := by injection h2
    exact_mod_cast h3
  · have hd : md5Digest (utf8Bytes (mergedArgs [PyVal.pyInt (n : Int)] [])) =
        md5Digest (utf8Bytes (mergedArgs [PyVal.pyInt (m : Int)] [])) :=
      congrArg Fin.val he
    simp only [taskIdentifier, if_true, md5Hex, hd]

/-- C7 (amended): disabling `include_args` collapses every call of a task
name to the same identity; with `include_args`, equal canonicalized
argument sets (same positional tuple, same key-sorted keyword pairs)
always yield the same identity, and argument sets whose canonical
serializations have different MD5 hexdigests yield different identities. -/
theorem taskIdentifier_canonicalization :
    (∀ (name : String) (args : List PyVal) (kwargs : List (String × PyVal)),
        taskIdentifier name false args kwargs = name) ∧
    (∀ (name : String) (a1 a2 : List PyVal) (k1 k2 : List (String × PyVal)),
        a1 = a2 → sortKwargs k1 = sortKwargs k2 →
        taskIdentifier name true a1 k1 = taskIdentifier name true a2 k2) ∧
    (∀ (name : String) (a1 a2 : List PyVal) (k1 k2 : List (String × PyVal)),
        md5Hex (utf8Bytes (mergedArgs a1 k1)) ≠ md5Hex (utf8Bytes (mergedArgs a2 k2)) →
        taskIdentifier name true a1 k1 ≠ taskIdentifier name true a2 k2) := by
  refine ⟨fun name args kwargs => rfl, ?_, ?_⟩
  · intro name a1 a2 k1 k2 ha hk
    subst ha
    simp only [taskIdentifier, if_true, mergedArgs, hk]
  · intro name a1 a2 k1 k2 h hid
    simp only [taskIdentifier, if_true] at hid
    exact h (append_left_cancel_str (name ++ ".args.") _ _ hid)

set_option maxRecDepth 100000 in
/-- Witness for the amended C7: identity without args is the bare name;
keyword order does not matter after canonicalization; two different
one-int argument lists with different digests get different identities. -/
theorem taskIdentifier_canonicalization_witness :
    taskIdentifier "t" false [PyVal.pyInt 9] [] = "t" ∧
    taskIdentifier "t" true [] [("a", PyVal.pyInt 1), ("b", PyVal.pyInt 2)] =
      taskIdentifier "t" true [] [("b", PyVal.pyInt 2), ("a", PyVal.pyInt 1)] ∧
    taskIdentifier "t" true [PyVal.pyInt 1] [] ≠ taskIdentifier "t" true [PyVal.pyInt 2] [] :=
  ⟨taskIdentifier_canonicalization.1 "t" [PyVal.pyInt 9] [],
   taskIdentifier_canonicalization.2.1 "t" [] [] [("a", PyVal.pyInt 1), ("b", PyVal.pyInt 2)]
     [("b", PyVal.pyInt 2), ("a", PyVal.pyInt 1)] rfl (by decide),
   taskIdentifier_canonicalization.2.2 "t" [PyVal.pyInt 1] [PyVal.pyInt 2] [] [] (by decide)⟩

set_option maxRecDepth 100000 in
/-- C10: the canonicalization does not unify call forms: passing the value
5 positionally serializes as the tuple string, passing it as keyword `x`
serializes as the key-sorted pair list, and the two resulting identities
differ. -/
theorem positional_vs_keyword_distinct :
    mergedArgs [PyVal.pyInt 5] [] = "(5,)[]" ∧
    mergedArgs [] [("x", PyVal.pyInt 5)] = "()[(" ++ sqStr ++ "x" ++ sqStr ++ ", 5)]" ∧
    taskIdentifier "task" true [PyVal.pyInt 5] [] ≠
      taskIdentifier "task" true [] [("x", PyVal.pyInt 5)] := by
  exact ⟨by decide, by decide, by decide⟩
